import Mathlib

/-!
Verification of the chatbot repository's realtime-voice core and hospitality
API layer, as a shallow embedding of the Python sources:

* `src/chatbot/api/oracle_hospitality/token_manager.py` (OracleTokenManager)
* `src/chatbot/api/oracle_hospitality/client.py` and `src/chatbot/api/client.py`
  (request retry on authentication failure)
* `src/realtime_voice.py` (BufferedAudioOutput)
* `src/chatbot/realtime_client.py` (RealtimeClient message dispatch and tool
  execution)
* `src/chatbot/modes/realtime_voice.py` (RealtimeVoiceHandler.stop)

Python wall-clock datetimes are modelled as integers (seconds); byte strings
as lists of naturals; raised exceptions as `Except.error`; callbacks as
booleans (set / not set) together with an explicit effect trace recording each
invocation in order.
-/

/-! ### OracleTokenManager (token_manager.py) -/

/-- TokenInfo dataclass: access token plus absolute expiry time (seconds). -/
structure TokenInfo where
  accessToken : String
  expiresAt : Int
  tokenType : String
deriving DecidableEq, Repr

/-- Mutable state of OracleTokenManager: the `_token_info` cache slot. -/
structure TokenManagerState where
  tokenInfo : Option TokenInfo
deriving DecidableEq, Repr

/-- EXPIRATION_BUFFER = 300 seconds (5 minutes), from the class constant. -/
def EXPIRATION_BUFFER : Int := 300

/-- OracleTokenManager._is_token_expired: true when no token is cached or
`datetime.now() >= expires_at - buffer`. -/
def isTokenExpired (now : Int) (st : TokenManagerState) : Bool :=
  match st.tokenInfo with
  | none => true
  | some t => decide (now ≥ t.expiresAt - EXPIRATION_BUFFER)

/-- Result of one `get_token()` call: the returned token, the cache state
afterwards, and whether `_fetch_new_token` was invoked. -/
structure GetTokenResult where
  token : String
  state : TokenManagerState
  fetched : Bool
deriving DecidableEq, Repr

/-- OracleTokenManager.get_token, with the underlying HTTP fetch abstracted as
the TokenInfo `f` that `_fetch_new_token` would return.  Under the lock: if the
cached token is expired or missing, fetch a new one and store it; otherwise
return the cached value. -/
def getToken (f : TokenInfo) (now : Int) (st : TokenManagerState) : GetTokenResult :=
  match st.tokenInfo with
  | none => ⟨f.accessToken, ⟨some f⟩, true⟩
  | some t =>
      if now ≥ t.expiresAt - EXPIRATION_BUFFER then
        ⟨f.accessToken, ⟨some f⟩, true⟩
      else
        ⟨t.accessToken, st, false⟩

/-- OracleTokenManager.invalidate_token: clears the cache slot unconditionally. -/
def invalidateToken (_st : TokenManagerState) : TokenManagerState := ⟨none⟩

/-! ### BaseAPIClient / OracleHospitalityClient (client.py) -/

/-- Typed API errors raised by BaseAPIClient._request (exceptions.py). -/
inductive ApiError
  | connection
  | authentication (status : Nat)
  | validation (msg : String)
  | notFound
  | server (status : Nat)
  | timeout
deriving DecidableEq, Repr

/-- Trace of one OracleHospitalityClient._request_with_retry call: its result,
how many times `_request` was issued, and whether `invalidate_token` ran. -/
structure RetryTrace (α : Type) where
  result : Except ApiError α
  calls : Nat
  invalidated : Bool

/-- OracleHospitalityClient._request_with_retry, with `request n` giving the
outcome of the (n+1)-th underlying `BaseAPIClient._request` call (the cached
token may change between calls, so the two calls may differ).  The first
APIAuthenticationError is caught, the token invalidated, and the request
re-issued exactly once; every other outcome (including any error of the second
call) propagates. -/
def requestWithRetry {α : Type} (request : Nat → Except ApiError α) : RetryTrace α :=
  match request 0 with
  | Except.ok r => ⟨Except.ok r, 1, false⟩
  | Except.error (ApiError.authentication _) => ⟨request 1, 2, true⟩
  | Except.error e => ⟨Except.error e, 1, false⟩

/-! ### Theorems: token cache (C6, C7) and retry (C8) -/

/-- C6: for every cache state, `invalidate_token` leaves the cache slot empty,
and the next `get_token` performs a fresh fetch and returns the newly fetched
token, even if the previously cached token had not expired. -/
theorem invalidate_forces_refetch (st : TokenManagerState) (f : TokenInfo) (now : Int) :
    (invalidateToken st).tokenInfo = none
    ∧ (getToken f now (invalidateToken st)).fetched = true
    ∧ (getToken f now (invalidateToken st)).token = f.accessToken
    ∧ (getToken f now (invalidateToken st)).state = ⟨some f⟩ := by
  simp [invalidateToken, getToken]

/-- C7: `get_token` returns the cached token without fetching iff a token is
cached and `now` is strictly before its expiry minus the 300-second buffer;
otherwise it fetches, stores the fresh token, and returns it. -/
theorem getToken_cache_policy (f : TokenInfo) (now : Int) (st : TokenManagerState) :
    ((getToken f now st).fetched = false ↔
      ∃ t, st.tokenInfo = some t ∧ now < t.expiresAt - EXPIRATION_BUFFER)
    ∧ ((getToken f now st).fetched = false →
        (getToken f now st).state = st
        ∧ ∃ t, st.tokenInfo = some t ∧ (getToken f now st).token = t.accessToken)
    ∧ ((getToken f now st).fetched = true →
        (getToken f now st).token = f.accessToken
        ∧ (getToken f now st).state = ⟨some f⟩) := by
  obtain ⟨tok⟩ := st
  cases tok with
  | none => simp [getToken]
  | some t =>
      by_cases h : now ≥ t.expiresAt - EXPIRATION_BUFFER
      · refine ⟨?_, ?_, ?_⟩
        · simp [getToken, h]
          try omega
        · intro hc
          simp [getToken, h] at hc
        · intro _
          simp [getToken, h]
      · refine ⟨?_, ?_, ?_⟩
        · simp [getToken, h]
          try omega
        · intro _
          simp [getToken, h]
        · intro hc
          simp [getToken, h] at hc

/-- C7 witness: at time 0 a token expiring at 1000 is still fresh (0 < 700),
so `get_token` returns it without fetching. -/
theorem getToken_cache_policy_witness :
    (getToken ⟨"new", 9999, "Bearer"⟩ 0 ⟨some ⟨"tok", 1000, "Bearer"⟩⟩).state
        = ⟨some ⟨"tok", 1000, "Bearer"⟩⟩
    ∧ ∃ t, (⟨some ⟨"tok", 1000, "Bearer"⟩⟩ : TokenManagerState).tokenInfo = some t
        ∧ (getToken ⟨"new", 9999, "Bearer"⟩ 0 ⟨some ⟨"tok", 1000, "Bearer"⟩⟩).token
            = t.accessToken :=
  (getToken_cache_policy ⟨"new", 9999, "Bearer"⟩ 0 ⟨some ⟨"tok", 1000, "Bearer"⟩⟩).2.1
    (by decide)

/-- C8: an authentication failure on the first `_request` triggers exactly one
invalidate-and-retry; the retried call's outcome (success or any error,
including a second authentication error) propagates to the caller; non-auth
first failures are not retried; no path issues more than two requests. -/
theorem auth_retry_once {α : Type} (request : Nat → Except ApiError α) :
    (requestWithRetry request).calls ≤ 2
    ∧ (∀ s, request 0 = Except.error (ApiError.authentication s) →
        (requestWithRetry request).invalidated = true
        ∧ (requestWithRetry request).calls = 2
        ∧ (requestWithRetry request).result = request 1)
    ∧ (∀ e, request 0 = Except.error e → (∀ s, e ≠ ApiError.authentication s) →
        (requestWithRetry request).result = Except.error e
        ∧ (requestWithRetry request).invalidated = false
        ∧ (requestWithRetry request).calls = 1) := by
  rcases h0 : request 0 with e | r
  case error =>
    cases e with
    | authentication s =>
        refine ⟨?_, ?_, ?_⟩
        · simp [requestWithRetry, h0]
        · intro s2 _
          simp [requestWithRetry, h0]
        · intro e2 he hne
          injection he with h1
          exact absurd h1.symm (hne s)
    | connection =>
        refine ⟨?_, ?_, ?_⟩
        · simp [requestWithRetry, h0]
        · intro s2 hs
          simp at hs
        · intro e2 he _
          injection he with h1
          subst h1
          simp [requestWithRetry, h0]
    | validation m =>
        refine ⟨?_, ?_, ?_⟩
        · simp [requestWithRetry, h0]
        · intro s2 hs
          simp at hs
        · intro e2 he _
          injection he with h1
          subst h1
          simp [requestWithRetry, h0]
    | notFound =>
        refine ⟨?_, ?_, ?_⟩
        · simp [requestWithRetry, h0]
        · intro s2 hs
          simp at hs
        · intro e2 he _
          injection he with h1
          subst h1
          simp [requestWithRetry, h0]
    | server s =>
        refine ⟨?_, ?_, ?_⟩
        · simp [requestWithRetry, h0]
        · intro s2 hs
          simp at hs
        · intro e2 he _
          injection he with h1
          subst h1
          simp [requestWithRetry, h0]
    | timeout =>
        refine ⟨?_, ?_, ?_⟩
        · simp [requestWithRetry, h0]
        · intro s2 hs
          simp at hs
        · intro e2 he _
          injection he with h1
          subst h1
          simp [requestWithRetry, h0]
  case ok =>
    refine ⟨?_, ?_, ?_⟩
    · simp [requestWithRetry, h0]
    · intro s hs
      simp at hs
    · intro e2 he _
      simp at he

/-- C8 witness: a request whose first attempt is rejected with 401 and whose
retry succeeds; the retry layer invalidates once, issues two calls, and
returns the second outcome. -/
theorem auth_retry_once_witness :
    (requestWithRetry (fun n =>
        if n = 0 then Except.error (ApiError.authentication 401)
        else Except.ok "payload")).invalidated = true
    ∧ (requestWithRetry (fun n =>
        if n = 0 then Except.error (ApiError.authentication 401)
        else Except.ok "payload")).calls = 2
    ∧ (requestWithRetry (fun n =>
        if n = 0 then Except.error (ApiError.authentication 401)
        else Except.ok "payload")).result
      = (fun n =>
          if n = 0 then Except.error (ApiError.authentication 401)
          else Except.ok "payload") 1 :=
  (auth_retry_once (fun n =>
      if n = 0 then Except.error (ApiError.authentication 401)
      else Except.ok ("payload" : String))).2.1 401 rfl

/-! ### BufferedAudioOutput (src/realtime_voice.py) -/

/-- Mutable state of BufferedAudioOutput: the byte buffer (`self.buffer`,
a bytearray modelled as a list of byte values). -/
structure AudioBufferState where
  buffer : List Nat
deriving DecidableEq, Repr

/-- BufferedAudioOutput.add_audio: extend the buffer with the chunk (under
`buffer_lock`). -/
def addAudio (st : AudioBufferState) (chunk : List Nat) : AudioBufferState :=
  ⟨st.buffer ++ chunk⟩

/-- Result of one iteration of the `_play_loop` while-body: the buffer
afterwards, the blocks written to the sink this iteration (zero or one), and
the `is_playing` flag.  The int16-to-float32 sample conversion applied just
before `stream.write` is a per-sample bijection and is elided; `written`
records the dequeued bytes handed to the sink. -/
structure PlayStepResult where
  state : AudioBufferState
  written : List (List Nat)
  isPlaying : Bool
deriving DecidableEq, Repr

/-- One iteration of BufferedAudioOutput._play_loop: if at least 4096 bytes
are buffered, dequeue `min (len buffer) 8192` bytes and write them; otherwise
write nothing and sleep. -/
def playLoopStep (st : AudioBufferState) : PlayStepResult :=
  if 4096 ≤ st.buffer.length then
    let chunkSize := min st.buffer.length 8192
    ⟨⟨st.buffer.drop chunkSize⟩, [st.buffer.take chunkSize], true⟩
  else
    ⟨st, [], false⟩

/-- An operation on the audio buffer: an `add_audio` call from the receive
thread, or one drain iteration of the playback loop. -/
inductive AudioOp
  | append (chunk : List Nat)
  | drain
deriving Repr

/-- Run a sequence of buffer operations from a given buffer state, collecting
the blocks written to the sink in order. -/
def runAudioFrom (st : AudioBufferState) : List AudioOp → AudioBufferState × List (List Nat)
  | [] => (st, [])
  | AudioOp.append c :: ops => runAudioFrom (addAudio st c) ops
  | AudioOp.drain :: ops =>
      let r := playLoopStep st
      let rest := runAudioFrom r.state ops
      (rest.1, r.written ++ rest.2)

/-- Run a sequence of buffer operations from the initial empty buffer. -/
def runAudio (ops : List AudioOp) : AudioBufferState × List (List Nat) :=
  runAudioFrom ⟨[]⟩ ops

/-- Concatenation of all appended chunks, in append order. -/
def appendedBytes : List AudioOp → List Nat
  | [] => []
  | AudioOp.append c :: ops => c ++ appendedBytes ops
  | AudioOp.drain :: ops => appendedBytes ops

/-- Helper invariant for C4: from any starting buffer, sink writes followed by
the remaining buffer reproduce the starting buffer followed by all appended
bytes. -/
lemma runAudioFrom_conservation (ops : List AudioOp) :
    ∀ st : AudioBufferState,
      ((runAudioFrom st ops).2).flatten ++ (runAudioFrom st ops).1.buffer
        = st.buffer ++ appendedBytes ops := by
  induction ops with
  | nil => intro st; simp [runAudioFrom, appendedBytes]
  | cons op ops ih =>
      intro st
      cases op with
      | append c =>
          simp only [runAudioFrom, appendedBytes]
          rw [ih (addAudio st c)]
          simp [addAudio]
      | drain =>
          simp only [runAudioFrom, appendedBytes, List.flatten_append]
          rw [List.append_assoc, ih (playLoopStep st).state]
          by_cases h : 4096 ≤ st.buffer.length
          · simp [playLoopStep, h]
            rw [← List.append_assoc, List.take_append_drop]
          · simp [playLoopStep, h]

/-- C4: for every sequence of append operations interleaved with playback
drain steps, the concatenation of the byte blocks handed to the sink followed
by the bytes remaining in the buffer equals the concatenation of all appended
chunks in append order: no byte is reordered, duplicated, or lost. -/
theorem audio_buffer_conservation (ops : List AudioOp) :
    ((runAudio ops).2).flatten ++ (runAudio ops).1.buffer = appendedBytes ops := by
  have h := runAudioFrom_conservation ops ⟨[]⟩
  simpa [runAudio] using h

/-- C5: a drain step writes to the sink iff at least 4096 bytes (the low-water
mark) are buffered; each written block is at most 8192 bytes (the high-water
mark); below the low-water mark the step writes nothing and leaves the buffer
unchanged. -/
theorem playLoop_watermarks (st : AudioBufferState) :
    ((playLoopStep st).written ≠ [] ↔ 4096 ≤ st.buffer.length)
    ∧ (∀ b ∈ (playLoopStep st).written, b.length ≤ 8192)
    ∧ (st.buffer.length < 4096 →
        (playLoopStep st).written = [] ∧ (playLoopStep st).state = st) := by
  by_cases h : 4096 ≤ st.buffer.length
  · refine ⟨?_, ?_, ?_⟩
    · simp [playLoopStep, h]
    · intro b hb
      simp [playLoopStep, h] at hb
      subst hb
      simp [List.length_take]
    · intro hlt
      omega
  · refine ⟨?_, ?_, ?_⟩
    · simp [playLoopStep, h]
    · intro b hb
      simp [playLoopStep, h] at hb
    · intro _
      simp [playLoopStep, h]

/-- C5 witness: a 100-byte buffer is below the low-water mark, so a drain step
writes nothing; a 4096-byte buffer is at the mark, so it writes. -/
theorem playLoop_watermarks_witness :
    (playLoopStep ⟨List.replicate 100 0⟩).written = []
    ∧ (playLoopStep ⟨List.replicate 100 0⟩).state = ⟨List.replicate 100 0⟩
    ∧ (playLoopStep ⟨List.replicate 4096 0⟩).written ≠ [] := by
  refine ⟨?_, ?_, ?_⟩
  · exact ((playLoop_watermarks ⟨List.replicate 100 0⟩).2.2
      (by simp only [List.length_replicate]; omega)).1
  · exact ((playLoop_watermarks ⟨List.replicate 100 0⟩).2.2
      (by simp only [List.length_replicate]; omega)).2
  · exact (playLoop_watermarks ⟨List.replicate 4096 0⟩).1.mpr
      (by simp only [List.length_replicate]; omega)

/-! ### RealtimeClient (src/chatbot/realtime_client.py) -/

/-- Parsed JSON value, the result of `json.loads` on a tool-call argument
string.  Handlers receive the parsed object opaquely (keyword expansion
happens inside the handler model). -/
inductive Json
  | null
  | bool (b : Bool)
  | num (n : Int)
  | str (s : String)
  | arr (xs : List Json)
  | obj (fields : List (String × Json))

/-- Which of the optional constructor callbacks of RealtimeClient are set
(each is invoked only after an `if self.on_xxx:` truthiness check). -/
structure Callbacks where
  onAudio : Bool
  onTranscript : Bool
  onTranscriptDone : Bool
  onSpeechStarted : Bool
  onSpeechStopped : Bool
  onError : Bool
deriving DecidableEq, Repr

/-- Callback configuration with every callback installed. -/
def Callbacks.all : Callbacks := ⟨true, true, true, true, true, true⟩

/-- One callback invocation, recorded in order.  `onAudio` carries the
base64 payload of the delta (the `base64.b64decode` applied before the call
is a bijection on payloads and is elided). -/
inductive Effect
  | onAudio (b64 : String)
  | onTranscript (role delta : String)
  | onTranscriptDone (role text : String)
  | onSpeechStarted
  | onSpeechStopped
  | onError (msg : String)
deriving DecidableEq, Repr

/-- An event sent over the WebSocket by the client (the two sends of
`_execute_function`). -/
inductive OutEvent
  | functionCallOutput (callId output : String)
  | responseCreate
deriving DecidableEq, Repr

/-- Environment of the client: the `json.loads` parser (Except.error models a
raised JSONDecodeError, carrying its message), the `_tool_handlers` dict
(a handler returning `Except.error e` models the handler raising an exception
with message `e`), and which callbacks are set. -/
structure ExecEnv where
  parse : String → Except String Json
  handlers : List (String × (Json → Except String String))
  cb : Callbacks

/-- Outcome of RealtimeClient._execute_function: the events sent over the
connection, in order, and the callback invocations. -/
structure ExecResult where
  outs : List OutEvent
  effs : List Effect
deriving DecidableEq, Repr

/-- RealtimeClient._execute_function: parse the argument string (empty string
short-circuits to an empty object without parsing); look up the handler; an
unknown tool or a raising handler is converted to an error-string result; the
result is sent back as a function_call_output item followed by a
response.create request.  A parse failure is caught by the outer handler:
nothing is sent and on_error (when set) receives a tool-error message. -/
def executeFunction (env : ExecEnv) (callId name arguments : String) : ExecResult :=
  let argsE : Except String Json :=
    if arguments = "" then Except.ok (Json.obj []) else env.parse arguments
  match argsE with
  | Except.error e =>
      ⟨[], if env.cb.onError then [Effect.onError ("Tool error: " ++ e)] else []⟩
  | Except.ok args =>
      let result : String :=
        match env.handlers.lookup name with
        | none => "Error: Unknown function \x27" ++ name ++ "\x27"
        | some h =>
            match h args with
            | Except.ok r => r
            | Except.error e => "Error executing " ++ name ++ ": " ++ e
      ⟨[OutEvent.functionCallOutput callId result, OutEvent.responseCreate], []⟩

/-- Inbound WebSocket message, one constructor per `msg_type` branch of
RealtimeClient._handle_message.  `transcriptDone` carries the optional
"transcript" field; when absent, the code falls back to the accumulated
assistant transcript. -/
inductive InMsg
  | errorMsg (message : String)
  | audioDelta (delta : String)
  | transcriptDelta (delta : String)
  | transcriptDone (transcript : Option String)
  | inputTranscriptionCompleted (transcript : String)
  | functionCallArgsDone (callId name arguments : String)
  | responseCreated
  | responseDone
  | speechStartedVad
  | speechStoppedVad
  | sessionCreated
  | sessionUpdated

/-- Mutable state of RealtimeClient touched by _handle_message: the
`_assistant_transcript` accumulator. -/
structure ClientState where
  assistantTranscript : String
deriving DecidableEq, Repr

/-- Result of dispatching one (or several) inbound messages: state afterwards,
events sent, callbacks invoked, all in order. -/
structure StepResult where
  state : ClientState
  outs : List OutEvent
  effs : List Effect
deriving DecidableEq, Repr

/-- RealtimeClient._handle_message: dispatch on the message type.  Python
truthiness checks on strings (`if text:`) become `≠ ""` tests. -/
def handleMessage (env : ExecEnv) (st : ClientState) : InMsg → StepResult
  | InMsg.errorMsg m =>
      ⟨st, [], if env.cb.onError then [Effect.onError m] else []⟩
  | InMsg.audioDelta d =>
      ⟨st, [], if d ≠ "" ∧ env.cb.onAudio then [Effect.onAudio d] else []⟩
  | InMsg.transcriptDelta d =>
      if d ≠ "" then
        ⟨⟨st.assistantTranscript ++ d⟩, [],
          if env.cb.onTranscript then [Effect.onTranscript "assistant" d] else []⟩
      else ⟨st, [], []⟩
  | InMsg.transcriptDone t =>
      let fullText := t.getD st.assistantTranscript
      ⟨⟨""⟩, [],
        (if fullText ≠ "" ∧ env.cb.onTranscriptDone then
            [Effect.onTranscriptDone "assistant" fullText] else [])
          ++ (if env.cb.onSpeechStopped then [Effect.onSpeechStopped] else [])⟩
  | InMsg.inputTranscriptionCompleted t =>
      ⟨st, [],
        if t ≠ "" then
          (if env.cb.onTranscript then [Effect.onTranscript "user" t] else [])
            ++ (if env.cb.onTranscriptDone then [Effect.onTranscriptDone "user" t] else [])
        else []⟩
  | InMsg.functionCallArgsDone callId name arguments =>
      let r := executeFunction env callId name arguments
      ⟨st, r.outs, r.effs⟩
  | InMsg.responseCreated =>
      ⟨st, [], if env.cb.onSpeechStarted then [Effect.onSpeechStarted] else []⟩
  | InMsg.responseDone => ⟨st, [], []⟩
  | InMsg.speechStartedVad => ⟨st, [], []⟩
  | InMsg.speechStoppedVad => ⟨st, [], []⟩
  | InMsg.sessionCreated => ⟨st, [], []⟩
  | InMsg.sessionUpdated => ⟨st, [], []⟩

/-- Dispatch a sequence of inbound messages serially (the receive loop handles
events one at a time on a single task), concatenating sends and callback
invocations in order. -/
def handleMessages (env : ExecEnv) (st : ClientState) : List InMsg → StepResult
  | [] => ⟨st, [], []⟩
  | m :: ms =>
      let r := handleMessage env st m
      let rest := handleMessages env r.state ms
      ⟨rest.state, r.outs ++ rest.outs, r.effs ++ rest.effs⟩

/-- Speaking flag derived from the callback trace, as maintained by the UI
consumer in src/realtime_voice.py: `on_ai_speaking` (the on_speech_started
callback) sets `is_ai_speaking := true`, `on_ai_stopped` (on_speech_stopped)
clears it. -/
def isAiSpeakingAfter (effs : List Effect) : Bool :=
  effs.foldl
    (fun b e =>
      match e with
      | Effect.onSpeechStarted => true
      | Effect.onSpeechStopped => false
      | _ => b)
    false

/-- Sub-state of the OPEN superstate of the session, as observable through the
speaking flag: SPEAKING while the assistant speaks, LISTENING otherwise. -/
inductive Phase
  | listening
  | speaking
deriving DecidableEq, Repr

/-- Phase reached after a callback trace, starting from LISTENING. -/
def phaseAfter (effs : List Effect) : Phase :=
  if isAiSpeakingAfter effs then Phase.speaking else Phase.listening

/-- The inbound event sequence of the C1 scenario: response-created, three
audio deltas, two transcript deltas, transcript-done (without a "transcript"
field), response-done. -/
def turnSequence (a1 a2 a3 d1 d2 : String) : List InMsg :=
  [InMsg.responseCreated, InMsg.audioDelta a1, InMsg.audioDelta a2, InMsg.audioDelta a3,
   InMsg.transcriptDelta d1, InMsg.transcriptDelta d2,
   InMsg.transcriptDone none, InMsg.responseDone]

/-- Helper: appending on the right preserves nonemptiness of a string. -/
lemma String.append_left_ne_empty (s t : String) (h : s ≠ "") : s ++ t ≠ "" := by
  intro hc
  apply h
  have h3 := congrArg String.data hc
  simp only [String.data_append] at h3
  rcases List.append_eq_nil.mp h3 with ⟨hs, _⟩
  exact String.ext hs

/-! ### Theorems: tool execution (C2, C3, C10) -/

/-- C2: tool execution never lets an exception reach the protocol layer: when
the argument string parses (for every tool name and argument object), an
unknown tool name yields a descriptive error string and a handler that raises
with message `e` yields an error string ending in `e`; in both cases the
string result is sent as a function_call_output followed by response.create,
and no error escapes (the model returns a plain event list on every path). -/
theorem toolInvoker_never_raises (parse : String → Except String Json)
    (handlers : List (String × (Json → Except String String))) (cb : Callbacks)
    (callId name arguments : String) (args : Json)
    (hargs : (if arguments = "" then Except.ok (Json.obj [])
              else parse arguments) = Except.ok args) :
    (handlers.lookup name = none →
      executeFunction ⟨parse, handlers, cb⟩ callId name arguments
        = ⟨[OutEvent.functionCallOutput callId
              ("Error: Unknown function \x27" ++ name ++ "\x27"),
            OutEvent.responseCreate], []⟩)
    ∧ (∀ h e, handlers.lookup name = some h → h args = Except.error e →
        executeFunction ⟨parse, handlers, cb⟩ callId name arguments
          = ⟨[OutEvent.functionCallOutput callId
                ("Error executing " ++ name ++ ": " ++ e),
              OutEvent.responseCreate], []⟩
        ∧ ∃ pre, "Error executing " ++ name ++ ": " ++ e = pre ++ e) := by
  refine ⟨?_, ?_⟩
  · intro hnone
    simp [executeFunction, hargs, hnone]
  · intro h e hsome herr
    refine ⟨by simp [executeFunction, hargs, hsome, herr],
      "Error executing " ++ name ++ ": ", rfl⟩

/-- C2 witness: a registry with one handler that raises and no other entries:
the unknown name "nosuch" yields the descriptive error string, and the
raising handler "boom" yields an error string carrying its message. -/
theorem toolInvoker_never_raises_witness :
    (executeFunction
        ⟨fun _ => Except.ok (Json.obj []),
         [("boom", fun _ => Except.error "kaput")], Callbacks.all⟩
        "c1" "nosuch" "args"
      = ⟨[OutEvent.functionCallOutput "c1"
            ("Error: Unknown function \x27" ++ "nosuch" ++ "\x27"),
          OutEvent.responseCreate], []⟩)
    ∧ (executeFunction
        ⟨fun _ => Except.ok (Json.obj []),
         [("boom", fun _ => Except.error "kaput")], Callbacks.all⟩
        "c1" "boom" "args"
      = ⟨[OutEvent.functionCallOutput "c1"
            ("Error executing " ++ "boom" ++ ": " ++ "kaput"),
          OutEvent.responseCreate], []⟩) := by
  constructor
  · exact (toolInvoker_never_raises (fun _ => Except.ok (Json.obj []))
      [("boom", fun _ => Except.error "kaput")] Callbacks.all
      "c1" "nosuch" "args" (Json.obj []) (by simp)).1 (by simp)
  · exact ((toolInvoker_never_raises (fun _ => Except.ok (Json.obj []))
      [("boom", fun _ => Except.error "kaput")] Callbacks.all
      "c1" "boom" "args" (Json.obj []) (by simp)).2
      (fun _ => Except.error "kaput") "kaput" (by simp) rfl).1

/-- C3: a function-call-arguments-done event naming a registered tool whose
arguments parse and whose handler returns `r` produces exactly a
function_call_output event carrying `r` immediately followed by a
response.create event, with no callback invocations and no state change. -/
theorem functionCall_result_then_responseCreate (parse : String → Except String Json)
    (handlers : List (String × (Json → Except String String))) (cb : Callbacks)
    (st : ClientState) (callId name arguments r : String) (args : Json)
    (h : Json → Except String String)
    (hparse : parse arguments = Except.ok args)
    (hne : arguments ≠ "")
    (hlook : handlers.lookup name = some h)
    (hrun : h args = Except.ok r) :
    handleMessage ⟨parse, handlers, cb⟩ st (InMsg.functionCallArgsDone callId name arguments)
      = ⟨st, [OutEvent.functionCallOutput callId r, OutEvent.responseCreate], []⟩ := by
  simp [handleMessage, executeFunction, hne, hparse, hlook, hrun]

/-- C3 witness: an echo tool registered under "echo" whose handler returns the
"text" field of its argument object, fed arguments parsing to that object,
emits the function result "hi" then a response.create. -/
theorem functionCall_result_then_responseCreate_witness :
    handleMessage
        ⟨fun _ => Except.ok (Json.obj [("text", Json.str "hi")]),
         [("echo", fun j =>
            match j with
            | Json.obj [("text", Json.str s)] => Except.ok s
            | _ => Except.error "bad arguments")], Callbacks.all⟩
        ⟨""⟩ (InMsg.functionCallArgsDone "call_1" "echo" "argjson")
      = ⟨⟨""⟩, [OutEvent.functionCallOutput "call_1" "hi", OutEvent.responseCreate], []⟩ :=
  functionCall_result_then_responseCreate
    (fun _ => Except.ok (Json.obj [("text", Json.str "hi")]))
    [("echo", fun j =>
        match j with
        | Json.obj [("text", Json.str s)] => Except.ok s
        | _ => Except.error "bad arguments")] Callbacks.all
    ⟨""⟩ "call_1" "echo" "argjson" "hi" (Json.obj [("text", Json.str "hi")])
    (fun j =>
      match j with
      | Json.obj [("text", Json.str s)] => Except.ok s
      | _ => Except.error "bad arguments")
    rfl (by simp) (by simp) rfl

/-- C10: when the argument string of a function-call-arguments-done event is
nonempty and fails to parse, nothing is sent over the connection (no
function_call_output, no response.create); the only observable effect is the
on_error callback, invoked with a tool-error message when set. -/
theorem invalid_json_no_send (parse : String → Except String Json)
    (handlers : List (String × (Json → Except String String))) (cb : Callbacks)
    (st : ClientState) (callId name arguments e : String)
    (hne : arguments ≠ "")
    (hparse : parse arguments = Except.error e) :
    handleMessage ⟨parse, handlers, cb⟩ st (InMsg.functionCallArgsDone callId name arguments)
      = ⟨st, [],
          if cb.onError then [Effect.onError ("Tool error: " ++ e)] else []⟩ := by
  simp [handleMessage, executeFunction, hne, hparse]

/-- C10 witness: a parser rejecting the nonempty argument string "not json"
with message "Expecting value" leads to no outbound events and a single
on_error invocation carrying the tool-error message. -/
theorem invalid_json_no_send_witness :
    handleMessage
        ⟨fun _ => Except.error "Expecting value", [], Callbacks.all⟩
        ⟨""⟩ (InMsg.functionCallArgsDone "call_1" "echo" "not json")
      = ⟨⟨""⟩, [], [Effect.onError ("Tool error: " ++ "Expecting value")]⟩ := by
  have h := invalid_json_no_send (fun _ => Except.error "Expecting value") [] Callbacks.all
    ⟨""⟩ "call_1" "echo" "not json" "Expecting value" (by simp) rfl
  simpa [Callbacks.all] using h

/-- Helper: the empty string is a left identity for string append. -/
lemma empty_append_str (s : String) : "" ++ s = s := by
  apply String.ext
  simp [String.data_append]

/-! ### Theorem: assistant turn event sequence (C1) -/

/-- C1: with all callbacks set and nonempty transcript deltas, processing
[response-created, audio-delta x3, transcript-delta x2, transcript-done,
response-done] from a fresh assistant turn (empty accumulator) leaves the
accumulator empty, fires on_speech_started exactly once and on_speech_stopped
exactly once, delivers the concatenation of the two deltas to
on_transcript_done, and ends the session in the LISTENING phase. -/
theorem realtime_turn_sequence (env : ExecEnv) (a1 a2 a3 d1 d2 : String)
    (hcb : env.cb = Callbacks.all) (hd1 : d1 ≠ "") (hd2 : d2 ≠ "") :
    (handleMessages env ⟨""⟩ (turnSequence a1 a2 a3 d1 d2)).state.assistantTranscript = ""
    ∧ (handleMessages env ⟨""⟩ (turnSequence a1 a2 a3 d1 d2)).effs.count
        Effect.onSpeechStarted = 1
    ∧ (handleMessages env ⟨""⟩ (turnSequence a1 a2 a3 d1 d2)).effs.count
        Effect.onSpeechStopped = 1
    ∧ Effect.onTranscriptDone "assistant" (d1 ++ d2)
        ∈ (handleMessages env ⟨""⟩ (turnSequence a1 a2 a3 d1 d2)).effs
    ∧ phaseAfter (handleMessages env ⟨""⟩ (turnSequence a1 a2 a3 d1 d2)).effs
        = Phase.listening := by
  obtain ⟨parse, handlers, cb⟩ := env
  simp only at hcb
  subst hcb
  have hd12 : d1 ++ d2 ≠ "" := String.append_left_ne_empty d1 d2 hd1
  by_cases h1 : a1 = "" <;> by_cases h2 : a2 = "" <;> by_cases h3 : a3 = "" <;>
    simp [turnSequence, handleMessages, handleMessage, Callbacks.all, phaseAfter,
      isAiSpeakingAfter, empty_append_str, hd1, hd2, hd12, h1, h2, h3]

/-- C1 witness: a concrete run with payloads "QQ==", "Qg==", "" and transcript
deltas "Hel", "lo.". -/
theorem realtime_turn_sequence_witness :
    (handleMessages ⟨fun _ => Except.ok Json.null, [], Callbacks.all⟩ ⟨""⟩
        (turnSequence "QQ==" "Qg==" "" "Hel" "lo.")).state.assistantTranscript = ""
    ∧ (handleMessages ⟨fun _ => Except.ok Json.null, [], Callbacks.all⟩ ⟨""⟩
        (turnSequence "QQ==" "Qg==" "" "Hel" "lo.")).effs.count
          Effect.onSpeechStarted = 1
    ∧ (handleMessages ⟨fun _ => Except.ok Json.null, [], Callbacks.all⟩ ⟨""⟩
        (turnSequence "QQ==" "Qg==" "" "Hel" "lo.")).effs.count
          Effect.onSpeechStopped = 1
    ∧ Effect.onTranscriptDone "assistant" ("Hel" ++ "lo.")
        ∈ (handleMessages ⟨fun _ => Except.ok Json.null, [], Callbacks.all⟩ ⟨""⟩
            (turnSequence "QQ==" "Qg==" "" "Hel" "lo.")).effs
    ∧ phaseAfter (handleMessages ⟨fun _ => Except.ok Json.null, [], Callbacks.all⟩ ⟨""⟩
        (turnSequence "QQ==" "Qg==" "" "Hel" "lo.")).effs = Phase.listening :=
  realtime_turn_sequence ⟨fun _ => Except.ok Json.null, [], Callbacks.all⟩
    "QQ==" "Qg==" "" "Hel" "lo." rfl (by decide) (by decide)

/-! ### stop() idempotence (C9) -/

/-- State of RealtimeClient touched by stop(): the _running flag plus whether
the loop and websocket references are present (stop clears neither). -/
structure RtClientStopState where
  running : Bool
  hasLoop : Bool
  hasWs : Bool
deriving DecidableEq, Repr

/-- Outward action of RealtimeClient.stop: scheduling _ws.close() on the
event loop (not a user callback; closing an already-closed socket is a no-op). -/
inductive ClientStopEffect
  | scheduleWsClose
deriving DecidableEq, Repr

/-- RealtimeClient.stop: set _running := False and, when both the loop and the
websocket are present, schedule the socket close.  It invokes no user
callbacks. -/
def clientStop (st : RtClientStopState) : RtClientStopState × List ClientStopEffect :=
  (⟨false, st.hasLoop, st.hasWs⟩,
   if st.hasLoop ∧ st.hasWs then [ClientStopEffect.scheduleWsClose] else [])

/-- Which RealtimeVoiceHandler callbacks are set. -/
structure HandlerCallbacks where
  onConnectionChange : Bool
deriving DecidableEq, Repr

/-- State of RealtimeVoiceHandler touched by stop(): whether _client is set,
and the _initialized flag. -/
structure HandlerState where
  hasClient : Bool
  initFlag : Bool
deriving DecidableEq, Repr

/-- Observable actions of RealtimeVoiceHandler.stop: stopping the owned
client, and invoking the on_connection_change callback. -/
inductive HandlerEffect
  | clientStopCall
  | onConnectionChange (connected : Bool)
deriving DecidableEq, Repr

/-- RealtimeVoiceHandler.stop: if a client is present, stop it and clear the
reference; clear _initialized; then, whenever on_connection_change is set,
invoke it with False — on every call, not only the first. -/
def handlerStop (cb : HandlerCallbacks) (st : HandlerState) :
    HandlerState × List HandlerEffect :=
  ((⟨false, false⟩ : HandlerState),
   (if st.hasClient then [HandlerEffect.clientStopCall] else [])
     ++ (if cb.onConnectionChange then [HandlerEffect.onConnectionChange false] else []))

/-- Two successive RealtimeVoiceHandler.stop calls, effects concatenated. -/
def handlerStopTwice (cb : HandlerCallbacks) (st : HandlerState) :
    HandlerState × List HandlerEffect :=
  let r1 := handlerStop cb st
  let r2 := handlerStop cb r1.1
  (r2.1, r1.2 ++ r2.2)

/-- C9 counterexample: with the on_connection_change callback set and a live
client, a single stop() invokes on_connection_change once, but stop() twice
invokes it twice — a callback is invoked more times than by a single call, so
repeated stop() calls are not no-ops as claimed. -/
theorem stop_not_idempotent_counterexample :
    (handlerStop ⟨true⟩ ⟨true, true⟩).2.count (HandlerEffect.onConnectionChange false) = 1
    ∧ (handlerStopTwice ⟨true⟩ ⟨true, true⟩).2.count
        (HandlerEffect.onConnectionChange false) = 2 := by
  decide

/-- C9 amended: stop() twice produces no error and is idempotent on state and
on client shutdown — the second call reaches the same state and never stops
the client again — and RealtimeClient.stop is idempotent on its own state; the
one exception is the on_connection_change(False) notification, which (when
set) fires once per stop() call, hence twice for two calls. -/
theorem stop_idempotent_amended (cb : HandlerCallbacks) (st : HandlerState)
    (cst : RtClientStopState) :
    (handlerStopTwice cb st).1 = (handlerStop cb st).1
    ∧ (handlerStopTwice cb st).2.count HandlerEffect.clientStopCall
        = (handlerStop cb st).2.count HandlerEffect.clientStopCall
    ∧ (handlerStopTwice cb st).2.count (HandlerEffect.onConnectionChange false)
        = (if cb.onConnectionChange then 2 else 0)
    ∧ (clientStop (clientStop cst).1).1 = (clientStop cst).1 := by
  obtain ⟨c⟩ := cb
  obtain ⟨hc, hi⟩ := st
  obtain ⟨r, hl, hw⟩ := cst
  cases c <;> cases hc <;> cases hi <;> cases r <;> cases hl <;> cases hw <;> decide
